import Mathlib

set_option maxRecDepth 10000

/-!
Shallow embedding of the delivery-performance engine in `src/ran.py`.

An input table is a `List Order`; each pandas timestamp column is an
`Option Timestamp` (`none` models `NaT`, i.e. a value `pd.to_datetime`
failed to parse).  Pure pandas expressions become list filters; the
pandas exceptions raised on `NaT` range endpoints (`pd.date_range` with a
`NaT` start, `NaT.year`) are modelled by the processing functions
returning `none`.  Percentages are rationals; Python's `round(x, 2)` is
modelled with `round` on `ℚ` (the half-integer tie behaviour of floats is
irrelevant to every value computed here).
-/

structure Timestamp where
  year : Nat
  month : Nat
  day : Nat
  hour : Nat
  minute : Nat
deriving DecidableEq

structure Date where
  year : Nat
  month : Nat
  day : Nat
deriving DecidableEq

/-- Calendar date of a timestamp (pandas `.dt.date`). -/
def ts_date (t : Timestamp) : Date := ⟨t.year, t.month, t.day⟩

def is_leap (y : Nat) : Bool := (y % 4 == 0 && y % 100 != 0) || y % 400 == 0

def days_in_month (y m : Nat) : Nat :=
  if m = 2 then (if is_leap y then 29 else 28)
  else if m = 4 ∨ m = 6 ∨ m = 9 ∨ m = 11 then 30 else 31

def Date.next (d : Date) : Date :=
  if d.day < days_in_month d.year d.month then ⟨d.year, d.month, d.day + 1⟩
  else if d.month < 12 then ⟨d.year, d.month + 1, 1⟩
  else ⟨d.year + 1, 1, 1⟩

def Date.prev (d : Date) : Date :=
  if 1 < d.day then ⟨d.year, d.month, d.day - 1⟩
  else if 1 < d.month then ⟨d.year, d.month - 1, days_in_month d.year (d.month - 1)⟩
  else ⟨d.year - 1, 12, 31⟩

def days_before_month (y : Nat) : Nat → Nat
  | 0 => 0
  | m + 1 => days_before_month y m + (if m = 0 then 0 else days_in_month y m)

/-- Proleptic Gregorian day number, used only to size daily date ranges. -/
def Date.serial (d : Date) : Nat :=
  d.year * 365 + d.year / 4 - d.year / 100 + d.year / 400 +
    days_before_month d.year d.month + d.day

def date_range_aux : Date → Nat → List Date
  | _, 0 => []
  | d, n + 1 => d :: date_range_aux d.next n

/-- Daily `pd.date_range` from `a` to `b` inclusive (empty when `b` is
before `a`, like the pandas call with `start` after `end`). -/
def dateRange (a b : Date) : List Date := date_range_aux a (b.serial + 1 - a.serial)

/-- Bounded calendar date: the dates the engine iterates over. -/
def valid_date (d : Date) : Bool :=
  decide (1 ≤ d.year ∧ 1 ≤ d.month ∧ d.month ≤ 12 ∧ 1 ≤ d.day ∧
    d.day ≤ days_in_month d.year d.month)

/-- One row of the input table.  `hub` is the value of the resolved hub
column (`none` when that column is absent or the cell is missing). -/
structure Order where
  customer : String
  hub : Option String
  pickedOn : Option Timestamp
  firstAttemptedOn : Option Timestamp
  deliveredOn : Option Timestamp
deriving DecidableEq

/-- Special-customer list hard-coded inside `process_same_day`
(src/ran.py lines 49-54). -/
def special_customers_same_day : List String :=
  ["WESTSIDE UNIT OF TRENT LIMITED", "TATA CLiQ",
   "ZISHTA TRADITIONS PRIVATE LIMITED", "Heads Up for Tails HUFT"]

/-- Special-customer list hard-coded inside `process_next_day`
(src/ran.py lines 129-135); unlike the same-day list it also holds
"Ugaoo". -/
def special_customers_next_day : List String :=
  ["WESTSIDE UNIT OF TRENT LIMITED", "TATA CLiQ",
   "ZISHTA TRADITIONS PRIVATE LIMITED", "Ugaoo", "Heads Up for Tails HUFT"]

/-- Pandas `df['Picked on'].dt.date == d` for one row (`NaT` compares
false). -/
def pick_date_is (o : Order) (d : Date) : Bool :=
  o.pickedOn.any (fun t => decide (ts_date t = d))

def attempt_date_is (o : Order) (d : Date) : Bool :=
  o.firstAttemptedOn.any (fun t => decide (ts_date t = d))

def deliver_date_is (o : Order) (d : Date) : Bool :=
  o.deliveredOn.any (fun t => decide (ts_date t = d))

/-- Sort key realising pandas timestamp order for the in-range
timestamps the engine ever compares. -/
def ts_key (t : Timestamp) : Nat :=
  (((t.year * 13 + t.month) * 32 + t.day) * 24 + t.hour) * 60 + t.minute

/-- Pandas `df['Picked on'].min()`: `none` models the `NaT` result on a
frame with no parseable pickup. -/
def min_pick_ts (df : List Order) : Option Timestamp :=
  (df.filterMap Order.pickedOn).foldl
    (fun acc t =>
      match acc with
      | none => some t
      | some u => some (if ts_key t < ts_key u then t else u)) none

def max_pick_ts (df : List Order) : Option Timestamp :=
  (df.filterMap Order.pickedOn).foldl
    (fun acc t =>
      match acc with
      | none => some t
      | some u => some (if ts_key u < ts_key t then t else u)) none

/-- Guarded percentage `(count / total * 100) if total > 0 else 0`. -/
def pctOf (count total : Nat) : ℚ :=
  if 0 < total then (count : ℚ) / (total : ℚ) * 100 else 0

/-- Python `round(q, 2)`. -/
def round2 (q : ℚ) : ℚ := ((round (q * 100) : ℤ) : ℚ) / 100

/-- Rendering a percentage with the one-decimal display format applied by
`format_dataframe`. -/
def format_pct_display (q : ℚ) : ℚ := ((round (q * 10) : ℤ) : ℚ) / 10

/-- Hub filter applied when `hub_filter != "All" and hub_column and
hub_column in df.columns`; a resolved column is modelled by
`hub_column ≠ none`. -/
def apply_hub_filter (df : List Order) (hub_filter : String)
    (hub_column : Option String) : List Order :=
  if hub_filter ≠ "All" ∧ hub_column.isSome = true then
    df.filter (fun o => decide (o.hub = some hub_filter))
  else df

/-- Hub value written into each output row. -/
def hub_label (hub_filter : String) (hub_column : Option String) : String :=
  if hub_filter ≠ "All" ∧ hub_column.isSome = true then hub_filter else "All Hubs"

structure SameDayRow where
  date : Date
  hub : String
  orders : Nat
  attempted : Nat
  attemptedPct : ℚ
  delivered : Nat
  deliveredPct : ℚ
deriving DecidableEq

structure NextDayRow where
  date : Date
  hub : String
  orders : Nat
  attemptedPrevDay : Nat
  attemptedCurrDay : Nat
  totalAttempted : Nat
  attemptedPct : ℚ
  deliveredPrevDay : Nat
  deliveredCurrDay : Nat
  totalDelivered : Nat
  deliveredPct : ℚ
deriving DecidableEq

/-- The day's same-day eligible set: regular orders concatenated with
special orders picked before 15:00 (`pd.concat` of the two filters). -/
def valid_same_day_orders (picked : List Order) : List Order :=
  picked.filter (fun o => !(special_customers_same_day.contains o.customer)) ++
    (picked.filter (fun o => special_customers_same_day.contains o.customer)).filter
      (fun o => o.pickedOn.any (fun t => decide (t.hour < 15)))

/-- Loop body of `process_same_day` for one calendar day; `none` models
the `continue` on a day with no picked orders. -/
def same_day_row_for (df : List Order) (hub : String) (d : Date) : Option SameDayRow :=
  let picked := df.filter (fun o => pick_date_is o d)
  if picked.length = 0 then none
  else
    let valid := valid_same_day_orders picked
    let attempted := (valid.filter (fun o => attempt_date_is o d)).length
    let delivered := (valid.filter (fun o => deliver_date_is o d)).length
    some { date := d, hub := hub, orders := valid.length, attempted := attempted,
           attemptedPct := round2 (pctOf attempted valid.length),
           delivered := delivered,
           deliveredPct := round2 (pctOf delivered valid.length) }

/-- Day range of `process_same_day`: first of the minimum pickup's month
through the maximum pickup's next day.  (In the source the endpoints
carry the minimum pickup's time of day, which can drop the final day of
the range; that day never holds a pickup, so no emitted row changes.) -/
def same_day_dates (df : List Order) : List Date :=
  match min_pick_ts df, max_pick_ts df with
  | some mn, some mx => dateRange ⟨mn.year, mn.month, 1⟩ (ts_date mx).next
  | _, _ => []

/-- `process_same_day` (src/ran.py lines 34-107).  `none` models the
`ValueError` pandas raises in `pd.date_range` when the filtered frame
has no parseable pickup (both endpoints `NaT`). -/
def process_same_day (df_month : List Order) (hub_filter : String)
    (hub_column : Option String) : Option (List SameDayRow) :=
  let df := apply_hub_filter df_month hub_filter hub_column
  match min_pick_ts df with
  | none => none
  | some _ =>
      some ((same_day_dates df).filterMap
        (same_day_row_for df (hub_label hub_filter hub_column)))

/-- Loop body of `process_next_day` for one calendar day; `none` models
the `continue` when no special-customer order was picked after 15:00 on
the previous day. -/
def next_day_row_for (df_m df_full : List Order) (month_num prev_month prev_year : Nat)
    (hub_filter : String) (hub_column : Option String) (hub : String)
    (d : Date) : Option NextDayRow :=
  let pd' := d.prev
  let prev_df :=
    if pd'.month = month_num then df_m
    else
      apply_hub_filter
        (df_full.filter (fun o =>
          o.pickedOn.any (fun t => decide (t.month = prev_month ∧ t.year = prev_year))))
        hub_filter hub_column
  let special := prev_df.filter (fun o =>
    special_customers_next_day.contains o.customer &&
      pick_date_is o pd' && o.pickedOn.any (fun t => decide (15 ≤ t.hour)))
  if special.length = 0 then none
  else
    let aPrev := (special.filter (fun o => attempt_date_is o pd')).length
    let aCurr := (special.filter (fun o => attempt_date_is o d)).length
    let dPrev := (special.filter (fun o => deliver_date_is o pd')).length
    let dCurr := (special.filter (fun o => deliver_date_is o d)).length
    some { date := d, hub := hub, orders := special.length,
           attemptedPrevDay := aPrev, attemptedCurrDay := aCurr,
           totalAttempted := aPrev + aCurr,
           attemptedPct := round2 (pctOf (aPrev + aCurr) special.length),
           deliveredPrevDay := dPrev, deliveredCurrDay := dCurr,
           totalDelivered := dPrev + dCurr,
           deliveredPct := round2 (pctOf (dPrev + dCurr) special.length) }

/-- `process_next_day` (src/ran.py lines 110-224).  `none` models the
exception raised when the hub-filtered month frame has no parseable
pickup (`min()` is `NaT`, so `NaT.year` fails). -/
def process_next_day (df_month df_full : List Order) (month_num : Nat)
    (hub_filter : String) (hub_column : Option String) : Option (List NextDayRow) :=
  let df_m := apply_hub_filter df_month hub_filter hub_column
  match min_pick_ts df_m with
  | none => none
  | some mn =>
      let prev_month := if 1 < month_num then month_num - 1 else 12
      let prev_year := if 1 < month_num then mn.year else mn.year - 1
      let dates := (List.range (days_in_month mn.year month_num)).map
        (fun i => (⟨mn.year, month_num, i + 1⟩ : Date))
      some (dates.filterMap
        (next_day_row_for df_m df_full month_num prev_month prev_year
          hub_filter hub_column (hub_label hub_filter hub_column)))

/-- `filter_month_data` (src/ran.py lines 29-31): keeps rows whose pickup
month equals `month` (the year is not compared). -/
def filter_month_data (df : List Order) (month : Nat) : List Order :=
  df.filter (fun o => o.pickedOn.any (fun t => decide (t.month = month)))

/-- Candidate hub header names probed by `find_hub_column`. -/
def hub_column_candidates : List String :=
  ["Delivery hub", "Hub", "Delivery Hub", "Delivery_hub", "delivery_hub", "delivery hub"]

/-- `find_hub_column` (src/ran.py lines 21-26) over the table's column
names. -/
def find_hub_column (cols : List String) : Option String :=
  hub_column_candidates.find? (fun c => cols.contains c)

/-- First-occurrence distinct values, as pandas `Series.unique`. -/
def unique_first (l : List String) : List String :=
  l.foldl (fun acc x => if acc.contains x then acc else acc ++ [x]) []

def insert_sorted (s : String) : List String → List String
  | [] => [s]
  | x :: xs => if s ≤ x then s :: x :: xs else x :: insert_sorted s xs

def sort_strings (l : List String) : List String := l.foldr insert_sorted []

def collapse_adjacent : List String → List String
  | [] => []
  | [x] => [x]
  | x :: y :: xs => if x = y then collapse_adjacent (y :: xs) else x :: collapse_adjacent (y :: xs)

structure CustomerRow where
  customer : String
  totalOrders : Nat
  sameDayAttempted : Nat
  attemptedPct : ℚ
  sameDayDelivered : Nat
  deliveredPct : ℚ
deriving DecidableEq

/-- Row predicate `First attempted on` and `Picked on` share a calendar
day (false when either is `NaT`). -/
def same_day_literal_attempt (o : Order) : Bool :=
  match o.firstAttemptedOn, o.pickedOn with
  | some a, some p => decide (ts_date a = ts_date p)
  | _, _ => false

def same_day_literal_delivered (o : Order) : Bool :=
  match o.deliveredOn, o.pickedOn with
  | some a, some p => decide (ts_date a = ts_date p)
  | _, _ => false

/-- `process_customer_performance` (src/ran.py lines 278-302); pandas
`groupby('Customer')` visits keys in sorted order. -/
def process_customer_performance (df_month : List Order) : List CustomerRow :=
  let customers := collapse_adjacent (sort_strings (df_month.map Order.customer))
  customers.map (fun c =>
    let group := df_month.filter (fun o => decide (o.customer = c))
    let att := (group.filter same_day_literal_attempt).length
    let del := (group.filter same_day_literal_delivered).length
    { customer := c, totalOrders := group.length,
      sameDayAttempted := att, attemptedPct := round2 (pctOf att group.length),
      sameDayDelivered := del, deliveredPct := round2 (pctOf del group.length) })

structure HubPerfRow where
  hub : String
  avgAttemptedPct : ℚ
  avgDeliveredPct : ℚ
  totalOrders : Nat
deriving DecidableEq

def rat_mean (l : List ℚ) : ℚ := l.sum / (l.length : ℚ)

/-- `process_hub_performance` (src/ran.py lines 253-275): one summary row
per hub with same-day data; `none` models a propagated exception from
`process_same_day`. -/
def process_hub_performance (df_month : List Order)
    (hub_column : Option String) : Option (List HubPerfRow) :=
  match hub_column with
  | none => some []
  | some _ =>
      (unique_first (df_month.filterMap Order.hub)).foldr
        (fun h acc =>
          match acc, process_same_day df_month h hub_column with
          | some rows, some sd =>
              if sd.isEmpty then some rows
              else some ({ hub := h,
                           avgAttemptedPct := round2 (rat_mean (sd.map SameDayRow.attemptedPct)),
                           avgDeliveredPct := round2 (rat_mean (sd.map SameDayRow.deliveredPct)),
                           totalOrders := (sd.map SameDayRow.orders).sum } :: rows)
          | _, _ => none)
        (some [])

/-- `process_all_hubs_performance` (src/ran.py lines 227-250): with no
resolved hub column it returns two empty frames; otherwise it
concatenates the per-hub series. -/
def process_all_hubs_performance (df_month df_full : List Order) (month_num : Nat)
    (hub_column : Option String) : Option (List SameDayRow × List NextDayRow) :=
  match hub_column with
  | none => some ([], [])
  | some _ =>
      (unique_first (df_month.filterMap Order.hub)).foldr
        (fun h acc =>
          match acc with
          | none => none
          | some (sd, nd) =>
              match process_same_day df_month h hub_column,
                    process_next_day df_month df_full month_num h hub_column with
              | some s, some n => some (s ++ sd, n ++ nd)
              | _, _ => none)
        (some ([], []))

/-- `color_cells` (src/ran.py lines 305-313) on a numeric cell. -/
def color_cells (val : ℚ) : String :=
  if 95 ≤ val then "background-color: #4CAF50; color: white"
  else if 85 ≤ val then "background-color: #FFEB3B; color: black"
  else "background-color: #F44336; color: white"

/-- Membership predicate of the same-day eligible set of day `d`:
regular orders picked on `d`, plus same-day-special orders picked on `d`
before 15:00. -/
def same_day_counted (o : Order) (d : Date) : Bool :=
  pick_date_is o d &&
    (!(special_customers_same_day.contains o.customer) ||
      o.pickedOn.any (fun t => decide (t.hour < 15)))

/-- Membership predicate of the next-day source set attributed to day
`d`: next-day-special orders picked on `d - 1` at or after 15:00. -/
def next_day_counted (o : Order) (d : Date) : Bool :=
  special_customers_next_day.contains o.customer &&
    pick_date_is o d.prev && o.pickedOn.any (fun t => decide (15 ≤ t.hour))

/-! ### Helper lemmas -/

theorem date_prev_ne (d : Date) : d.prev ≠ d := by
  obtain ⟨y, m, dy⟩ := d
  unfold Date.prev
  dsimp only
  split_ifs with h1 h2 <;> intro he <;>
    simp only [Date.mk.injEq] at he <;> omega

theorem date_next_of_prev (d : Date) (h : valid_date d = true) : d.prev.next = d := by
  obtain ⟨y, m, dy⟩ := d
  simp only [valid_date, decide_eq_true_eq] at h
  obtain ⟨hy, hm1, hm2, hd1, hd2⟩ := h
  unfold Date.prev
  dsimp only
  split_ifs with h1 h2
  · unfold Date.next
    dsimp only
    rw [if_pos (by omega)]
    simp only [Date.mk.injEq, true_and, and_true]
    omega
  · unfold Date.next
    dsimp only
    rw [if_neg (by omega), if_pos (by omega)]
    simp only [Date.mk.injEq, true_and, and_true]
    omega
  · unfold Date.next
    dsimp only
    have h12 : days_in_month (y - 1) 12 = 31 := by simp [days_in_month]
    rw [h12, if_neg (by omega), if_neg (by omega)]
    simp only [Date.mk.injEq, true_and, and_true]
    omega

theorem date_prev_of_next (d : Date) (h : valid_date d = true) : d.next.prev = d := by
  obtain ⟨y, m, dy⟩ := d
  simp only [valid_date, decide_eq_true_eq] at h
  obtain ⟨hy, hm1, hm2, hd1, hd2⟩ := h
  unfold Date.next
  dsimp only
  split_ifs with h1 h2
  · unfold Date.prev
    dsimp only
    rw [if_pos (by omega)]
    simp only [Date.mk.injEq, true_and, and_true]
    omega
  · unfold Date.prev
    dsimp only
    rw [if_neg (by omega), if_pos (by omega)]
    simp only [Nat.add_sub_cancel, Date.mk.injEq, true_and, and_true]
    omega
  · unfold Date.prev
    dsimp only
    have hm12 : m = 12 := by omega
    subst hm12
    have h12 : days_in_month y 12 = 31 := by simp [days_in_month]
    rw [if_neg (by omega), if_neg (by omega)]
    simp only [Nat.add_sub_cancel, Date.mk.injEq, true_and, and_true]
    omega

theorem attempt_date_is_unique {o : Order} {d₁ d₂ : Date}
    (h₁ : attempt_date_is o d₁ = true) (h₂ : attempt_date_is o d₂ = true) : d₁ = d₂ := by
  unfold attempt_date_is at h₁ h₂
  cases ho : o.firstAttemptedOn with
  | none => rw [ho] at h₁; simp at h₁
  | some t =>
      rw [ho] at h₁ h₂
      simp only [Option.any_some, decide_eq_true_eq] at h₁ h₂
      rw [← h₁, ← h₂]

theorem deliver_date_is_unique {o : Order} {d₁ d₂ : Date}
    (h₁ : deliver_date_is o d₁ = true) (h₂ : deliver_date_is o d₂ = true) : d₁ = d₂ := by
  unfold deliver_date_is at h₁ h₂
  cases ho : o.deliveredOn with
  | none => rw [ho] at h₁; simp at h₁
  | some t =>
      rw [ho] at h₁ h₂
      simp only [Option.any_some, decide_eq_true_eq] at h₁ h₂
      rw [← h₁, ← h₂]

theorem filter_disjoint_length_le {α : Type} (p q : α → Bool) (l : List α)
    (hdisj : ∀ a, p a = true → q a = true → False) :
    (l.filter p).length + (l.filter q).length ≤ l.length := by
  induction l with
  | nil => simp
  | cons x xs ih =>
      cases hp : p x <;> cases hq : q x
      · simp only [List.filter_cons, hp, hq]
        simp only [Bool.false_eq_true, if_false, List.length_cons]
        omega
      · simp only [List.filter_cons, hp, hq]
        simp only [Bool.false_eq_true, if_false, if_true, List.length_cons]
        omega
      · simp only [List.filter_cons, hp, hq]
        simp only [Bool.false_eq_true, if_false, if_true, List.length_cons]
        omega
      · exact (hdisj x hp hq).elim

theorem pctOf_zero (c : Nat) : pctOf c 0 = 0 := by
  unfold pctOf
  simp

theorem round2_zero : round2 0 = 0 := by
  unfold round2
  norm_num

theorem round2_den (q : ℚ) : (100 * round2 q).den = 1 := by
  unfold round2
  have h : (100 : ℚ) * (((round (q * 100) : ℤ) : ℚ) / 100) = ((round (q * 100) : ℤ) : ℚ) := by
    field_simp
  rw [h]
  exact Rat.den_intCast _

theorem round2_close (q : ℚ) : |round2 q - q| ≤ 1 / 200 := by
  have he : round2 q - q = (((round (q * 100) : ℤ) : ℚ) - q * 100) / 100 := by
    unfold round2
    ring
  rw [he, abs_div, abs_of_pos (by norm_num : (0:ℚ) < 100),
    show (1 : ℚ) / 200 = (1 / 2) / 100 by norm_num,
    div_le_div_iff_of_pos_right (by norm_num : (0:ℚ) < 100), abs_sub_comm]
  exact abs_sub_round (q * 100)

theorem format_pct_display_den (q : ℚ) : (10 * format_pct_display q).den = 1 := by
  unfold format_pct_display
  have h : (10 : ℚ) * (((round (q * 10) : ℤ) : ℚ) / 10) = ((round (q * 10) : ℤ) : ℚ) := by
    field_simp
  rw [h]
  exact Rat.den_intCast _

theorem format_pct_display_close (q : ℚ) : |format_pct_display q - q| ≤ 1 / 20 := by
  have he : format_pct_display q - q = (((round (q * 10) : ℤ) : ℚ) - q * 10) / 10 := by
    unfold format_pct_display
    ring
  rw [he, abs_div, abs_of_pos (by norm_num : (0:ℚ) < 10),
    show (1 : ℚ) / 20 = (1 / 2) / 10 by norm_num,
    div_le_div_iff_of_pos_right (by norm_num : (0:ℚ) < 10), abs_sub_comm]
  exact abs_sub_round (q * 10)

theorem find_first_split {α : Type} (p : α → Bool) :
    ∀ (l : List α) (a : α), l.find? p = some a →
      ∃ l₁ l₂, l = l₁ ++ a :: l₂ ∧ p a = true ∧ ∀ x ∈ l₁, p x = false
  | [], a, h => by simp at h
  | x :: xs, a, h => by
      by_cases hx : p x = true
      · rw [List.find?_cons_of_pos _ hx] at h
        cases h
        exact ⟨[], xs, rfl, hx, by simp⟩
      · rw [List.find?_cons_of_neg _ hx] at h
        obtain ⟨l₁, l₂, he, hp, hall⟩ := find_first_split p xs a h
        refine ⟨x :: l₁, l₂, by simp [he], hp, ?_⟩
        intro z hz
        rcases List.mem_cons.mp hz with hz | hz
        · subst hz
          exact Bool.eq_false_iff.mpr hx
        · exact hall z hz

theorem process_same_day_some_eq {df : List Order} {hf : String} {hc : Option String}
    {out : List SameDayRow} (hout : process_same_day df hf hc = some out) :
    out = (same_day_dates (apply_hub_filter df hf hc)).filterMap
      (same_day_row_for (apply_hub_filter df hf hc) (hub_label hf hc)) := by
  simp only [process_same_day] at hout
  cases hmn : min_pick_ts (apply_hub_filter df hf hc) with
  | none => rw [hmn] at hout; simp at hout
  | some mn =>
      rw [hmn] at hout
      simp only [Option.some.injEq] at hout
      exact hout.symm

theorem mem_process_same_day {df : List Order} {hf : String} {hc : Option String}
    {out : List SameDayRow} {row : SameDayRow}
    (hout : process_same_day df hf hc = some out) (hrow : row ∈ out) :
    ∃ d ∈ same_day_dates (apply_hub_filter df hf hc),
      same_day_row_for (apply_hub_filter df hf hc) (hub_label hf hc) d = some row := by
  rw [process_same_day_some_eq hout] at hrow
  exact List.mem_filterMap.mp hrow

theorem same_day_row_shape {df : List Order} {hub : String} {d : Date} {row : SameDayRow}
    (h : same_day_row_for df hub d = some row) :
    row.date = d ∧ row.hub = hub ∧
    row.attemptedPct = round2 (pctOf row.attempted row.orders) ∧
    row.deliveredPct = round2 (pctOf row.delivered row.orders) ∧
    df.filter (fun o => pick_date_is o d) ≠ [] := by
  simp only [same_day_row_for] at h
  split at h
  · exact absurd h (by simp)
  · rename_i hne
    cases h
    refine ⟨rfl, rfl, rfl, rfl, ?_⟩
    intro hnil
    exact hne (by rw [hnil]; rfl)

theorem same_day_row_for_of_ne {df : List Order} {d : Date} (hub : String)
    (hne : df.filter (fun o => pick_date_is o d) ≠ []) :
    ∃ row, same_day_row_for df hub d = some row ∧ row.date = d := by
  simp only [same_day_row_for]
  rw [if_neg (by simpa using List.length_pos.mpr hne |>.ne')]
  exact ⟨_, rfl, rfl⟩

theorem mem_process_next_day {df_m df_f : List Order} {m : Nat} {hf : String}
    {hc : Option String} {out : List NextDayRow} {row : NextDayRow}
    (hout : process_next_day df_m df_f m hf hc = some out) (hrow : row ∈ out) :
    ∃ mn d, min_pick_ts (apply_hub_filter df_m hf hc) = some mn ∧
      next_day_row_for (apply_hub_filter df_m hf hc) df_f m
        (if 1 < m then m - 1 else 12) (if 1 < m then mn.year else mn.year - 1)
        hf hc (hub_label hf hc) d = some row := by
  simp only [process_next_day] at hout
  cases hmn : min_pick_ts (apply_hub_filter df_m hf hc) with
  | none => rw [hmn] at hout; simp at hout
  | some mn =>
      rw [hmn] at hout
      simp only [Option.some.injEq] at hout
      subst hout
      obtain ⟨d, _, hd⟩ := List.mem_filterMap.mp hrow
      exact ⟨mn, d, rfl, hd⟩

theorem next_day_row_shape {df_m df_f : List Order} {m pm py : Nat} {hf : String}
    {hc : Option String} {hub : String} {d : Date} {row : NextDayRow}
    (h : next_day_row_for df_m df_f m pm py hf hc hub d = some row) :
    ∃ S : List Order,
      row.date = d ∧ row.hub = hub ∧
      row.orders = S.length ∧ S.length ≠ 0 ∧
      row.attemptedPrevDay = (S.filter (fun o => attempt_date_is o d.prev)).length ∧
      row.attemptedCurrDay = (S.filter (fun o => attempt_date_is o d)).length ∧
      row.totalAttempted = row.attemptedPrevDay + row.attemptedCurrDay ∧
      row.attemptedPct = round2 (pctOf row.totalAttempted row.orders) ∧
      row.deliveredPrevDay = (S.filter (fun o => deliver_date_is o d.prev)).length ∧
      row.deliveredCurrDay = (S.filter (fun o => deliver_date_is o d)).length ∧
      row.totalDelivered = row.deliveredPrevDay + row.deliveredCurrDay ∧
      row.deliveredPct = round2 (pctOf row.totalDelivered row.orders) := by
  simp only [next_day_row_for] at h
  split at h
  all_goals
    split at h
    · exact absurd h (by simp)
    · rename_i hne
      cases h
      exact ⟨_, rfl, rfl, rfl, hne, rfl, rfl, rfl, rfl, rfl, rfl, rfl, rfl⟩

/-! ### Concrete input rows used in counterexamples and witnesses -/

/-- Order by "Ugaoo" picked after the cutoff; "Ugaoo" is special only in
the next-day list. -/
def ugaoo_order : Order :=
  ⟨"Ugaoo", none, some ⟨2024, 7, 5, 16, 0⟩, none, none⟩

/-- Spec scenario order: special customer picked on the last July day
after the cutoff, attempted and delivered on 1 August. -/
def tata_order : Order :=
  ⟨"TATA CLiQ", none, some ⟨2024, 7, 31, 16, 0⟩, some ⟨2024, 8, 1, 10, 0⟩,
    some ⟨2024, 8, 1, 14, 0⟩⟩

/-- Regular-customer order picked in August, making the August window
non-empty. -/
def acme_aug_order : Order :=
  ⟨"Acme", none, some ⟨2024, 8, 5, 10, 0⟩, none, none⟩

/-- Regular-customer order picked and first attempted on 2 July. -/
def acme_jul2_order : Order :=
  ⟨"Acme", none, some ⟨2024, 7, 2, 10, 0⟩, some ⟨2024, 7, 2, 12, 0⟩, none⟩

/-- Same-day-special order picked after the cutoff: a day whose picked
set is non-empty but whose eligible set is empty. -/
def westside_late_order : Order :=
  ⟨"WESTSIDE UNIT OF TRENT LIMITED", none, some ⟨2024, 7, 5, 16, 0⟩, none, none⟩

/-- Special order picked 5 July after the cutoff, attempted and delivered
the next day. -/
def tata_jul5_order : Order :=
  ⟨"TATA CLiQ", none, some ⟨2024, 7, 5, 16, 0⟩, some ⟨2024, 7, 6, 9, 0⟩,
    some ⟨2024, 7, 6, 12, 0⟩⟩

/-- Row with an unparseable pickup timestamp. -/
def unknown_pick_order : Order :=
  ⟨"Acme", none, none, some ⟨2024, 8, 2, 10, 0⟩, none⟩

/-! ### C1 -/

/-- C1: the claim is false as stated: the same-day and next-day
computations do not share one special-customer set.  "Ugaoo" is only in
the next-day list, so its after-cutoff order is counted as a regular
same-day order on its pickup day (5 July, orders count 1) and again as a
special next-day order attributed to 6 July (orders count 1). -/
theorem C1_counterexample :
    ("Ugaoo" ∈ special_customers_next_day ∧ "Ugaoo" ∉ special_customers_same_day) ∧
    process_same_day [ugaoo_order] "All" none =
      some [⟨⟨2024, 7, 5⟩, "All Hubs", 1, 0, 0, 0, 0⟩] ∧
    process_next_day [ugaoo_order] [ugaoo_order] 7 "All" none =
      some [⟨⟨2024, 7, 6⟩, "All Hubs", 1, 0, 0, 0, 0, 0, 0, 0, 0⟩] := by
  with_unfolding_all decide

/-- C1 (amended): for an order whose membership agrees between the two
hard-coded special-customer lists, classification is a partition: the
order is counted in the same-day eligible set exactly of its pickup day
when it is regular or picked before 15:00, counted in the next-day
source set exactly of the day after its pickup day when it is special
and picked at or after 15:00, and never both. -/
theorem C1_amended (o : Order) (t : Timestamp) (hp : o.pickedOn = some t)
    (hvt : valid_date (ts_date t) = true)
    (hagree : special_customers_same_day.contains o.customer =
      special_customers_next_day.contains o.customer) :
    (∀ d : Date, same_day_counted o d = true ↔
      (d = ts_date t ∧
        (special_customers_same_day.contains o.customer = true → t.hour < 15))) ∧
    (∀ d : Date, valid_date d = true → (next_day_counted o d = true ↔
      (d = (ts_date t).next ∧
        special_customers_same_day.contains o.customer = true ∧ 15 ≤ t.hour))) ∧
    (∀ d₁ d₂ : Date, same_day_counted o d₁ = true → next_day_counted o d₂ = true → False) := by
  have hsd : ∀ d : Date, same_day_counted o d = true ↔
      (d = ts_date t ∧
        (special_customers_same_day.contains o.customer = true → t.hour < 15)) := by
    intro d
    unfold same_day_counted pick_date_is
    rw [hp]
    cases hc : special_customers_same_day.contains o.customer <;>
      simp [hc, @eq_comm Date d]
  have hnd : ∀ d : Date, valid_date d = true → (next_day_counted o d = true ↔
      (d = (ts_date t).next ∧
        special_customers_same_day.contains o.customer = true ∧ 15 ≤ t.hour)) := by
    intro d hd
    unfold next_day_counted pick_date_is
    rw [hp, ← hagree]
    have hiff : ts_date t = d.prev ↔ d = (ts_date t).next := by
      constructor
      · intro he
        rw [he]
        exact (date_next_of_prev d hd).symm
      · intro he
        rw [he, date_prev_of_next _ hvt]
    cases hc : special_customers_same_day.contains o.customer <;>
      simp [hc, hiff]
  refine ⟨hsd, hnd, ?_⟩
  intro d₁ d₂ h₁ h₂
  obtain ⟨-, himp⟩ := (hsd d₁).mp h₁
  unfold next_day_counted pick_date_is at h₂
  rw [hp, ← hagree] at h₂
  simp only [Bool.and_eq_true, Option.any_some, decide_eq_true_eq] at h₂
  obtain ⟨⟨hcon, -⟩, hhour⟩ := h₂
  exact absurd (himp hcon) (by omega)

/-- C1 (witness): the amended partition instantiated for a
"WESTSIDE UNIT OF TRENT LIMITED" order picked 5 July 2024 at 16:00,
taking the next-day source-set membership at 6 July. -/
theorem C1_witness :
    next_day_counted westside_late_order ⟨2024, 7, 6⟩ = true ↔
      ((⟨2024, 7, 6⟩ : Date) = (ts_date ⟨2024, 7, 5, 16, 0⟩).next ∧
        special_customers_same_day.contains westside_late_order.customer = true ∧
        15 ≤ (⟨2024, 7, 5, 16, 0⟩ : Timestamp).hour) :=
  (C1_amended westside_late_order ⟨2024, 7, 5, 16, 0⟩ rfl (by decide)
      (by decide)).2.1 ⟨2024, 7, 6⟩ (by decide)

/-! ### C2 -/

/-- C2: the claim is false as stated: if the input holds exactly the one
"TATA CLiQ" order picked 31 July 2024 16:00, the August month frame is
empty, and `process_next_day` fails on it (pandas `NaT.year`; modelled by
`none`) instead of producing the 1 August row. -/
theorem C2_counterexample :
    filter_month_data [tata_order] 8 = [] ∧
    process_next_day (filter_month_data [tata_order] 8) [tata_order] 8 "All" none =
      none := by
  with_unfolding_all decide

/-- C2 (amended): with the same "TATA CLiQ" order plus one order picked
inside August (so the August frame is non-empty), the August next-day
series is exactly the 1 August row with orders_count 1,
attempted_current_day 1, total_attempted 1, attempted_pct 100,
delivered_current_day 1, delivered_pct 100, drawn from the July order
via the cross-month lookback. -/
theorem C2_amended_row :
    process_next_day (filter_month_data [tata_order, acme_aug_order] 8)
        [tata_order, acme_aug_order] 8 "All" none =
      some [⟨⟨2024, 8, 1⟩, "All Hubs", 1, 0, 1, 1, 100, 0, 1, 1, 100⟩] := by
  with_unfolding_all decide

/-! ### C3 -/

/-- C3: the claim is false as stated: with a single order picked 2 July
2024, the July same-day series holds only the 2 July row; 1 July (a
calendar day of the window with zero orders) is omitted rather than
reported as a zero-order row. -/
theorem C3_counterexample :
    process_same_day [acme_jul2_order] "All" none =
      some [⟨⟨2024, 7, 2⟩, "All Hubs", 1, 1, 100, 0, 0⟩] ∧
    ([(⟨⟨2024, 7, 2⟩, "All Hubs", 1, 1, 100, 0, 0⟩ : SameDayRow)].filter
      (fun row => decide (row.date = ⟨2024, 7, 1⟩))) = [] := by
  with_unfolding_all decide

/-- C3 (amended): the same-day series holds one row exactly for each day
of its range (first of the month through the day after the last pickup)
on which at least one order was picked: every emitted row's day has a
picked order, and every ranged day with a picked order gets a row (even
when its eligible set is empty, in which case the row reports zero
orders). -/
theorem C3_amended (df : List Order) (hf : String) (hc : Option String)
    (out : List SameDayRow) (hout : process_same_day df hf hc = some out) :
    (∀ row ∈ out, ∃ o ∈ apply_hub_filter df hf hc, pick_date_is o row.date = true) ∧
    (∀ d ∈ same_day_dates (apply_hub_filter df hf hc),
      (∃ o ∈ apply_hub_filter df hf hc, pick_date_is o d = true) →
      ∃ row ∈ out, row.date = d) := by
  constructor
  · intro row hrow
    obtain ⟨d, -, hr⟩ := mem_process_same_day hout hrow
    obtain ⟨hdate, -, -, -, hne⟩ := same_day_row_shape hr
    obtain ⟨o, ho⟩ := List.exists_mem_of_ne_nil _ hne
    have hmem := List.mem_filter.mp ho
    exact ⟨o, hmem.1, by rw [hdate]; exact hmem.2⟩
  · rintro d hd ⟨o, ho, hpick⟩
    have hne : (apply_hub_filter df hf hc).filter (fun o => pick_date_is o d) ≠ [] :=
      List.ne_nil_of_mem (List.mem_filter.mpr ⟨ho, hpick⟩)
    obtain ⟨row, hrow, hdate⟩ := same_day_row_for_of_ne (hub_label hf hc) hne
    refine ⟨row, ?_, hdate⟩
    rw [process_same_day_some_eq hout]
    exact List.mem_filterMap.mpr ⟨d, hd, hrow⟩

/-- C3 (witness): the amended statement instantiated on the single-order
table, producing the 2 July row. -/
theorem C3_witness :
    ∃ row ∈ [(⟨⟨2024, 7, 2⟩, "All Hubs", 1, 1, 100, 0, 0⟩ : SameDayRow)],
      row.date = (⟨2024, 7, 2⟩ : Date) :=
  (C3_amended [acme_jul2_order] "All" none
      [⟨⟨2024, 7, 2⟩, "All Hubs", 1, 1, 100, 0, 0⟩]
      (by with_unfolding_all decide)).2 ⟨2024, 7, 2⟩
    (by with_unfolding_all decide)
    ⟨acme_jul2_order, by with_unfolding_all decide, by with_unfolding_all decide⟩

/-! ### C4 -/

/-- C4: in every emitted same-day or next-day row whose orders count is
zero, both percentage fields are 0, and the guarded percentage never
divides by zero (a zero denominator yields 0). -/
theorem C4_zero_guard :
    (∀ (df : List Order) (hf : String) (hc : Option String) (out : List SameDayRow)
        (row : SameDayRow), process_same_day df hf hc = some out → row ∈ out →
        row.orders = 0 → row.attemptedPct = 0 ∧ row.deliveredPct = 0) ∧
    (∀ (df_m df_f : List Order) (m : Nat) (hf : String) (hc : Option String)
        (out : List NextDayRow) (row : NextDayRow),
        process_next_day df_m df_f m hf hc = some out → row ∈ out →
        row.orders = 0 → row.attemptedPct = 0 ∧ row.deliveredPct = 0) ∧
    (∀ c : Nat, pctOf c 0 = 0) := by
  refine ⟨?_, ?_, pctOf_zero⟩
  · intro df hf hc out row hout hrow h0
    obtain ⟨d, -, hr⟩ := mem_process_same_day hout hrow
    obtain ⟨-, -, ha, hdl, -⟩ := same_day_row_shape hr
    rw [ha, hdl, h0, pctOf_zero, pctOf_zero, round2_zero]
    exact ⟨rfl, rfl⟩
  · intro df_m df_f m hf hc out row hout hrow h0
    obtain ⟨mn, d, -, hr⟩ := mem_process_next_day hout hrow
    obtain ⟨S, -, -, hord, hne, -⟩ := next_day_row_shape hr
    exact absurd (hord.symm.trans h0) hne

/-- C4 (witness): the zero-order 5 July row produced by a single
same-day-special order picked after the cutoff has both percentages 0,
and the percentage guard at denominator 0 returns 0. -/
theorem C4_witness :
    ((⟨⟨2024, 7, 5⟩, "All Hubs", 0, 0, 0, 0, 0⟩ : SameDayRow).attemptedPct = 0 ∧
      (⟨⟨2024, 7, 5⟩, "All Hubs", 0, 0, 0, 0, 0⟩ : SameDayRow).deliveredPct = 0) ∧
    pctOf 7 0 = 0 :=
  ⟨C4_zero_guard.1 [westside_late_order] "All" none
      [⟨⟨2024, 7, 5⟩, "All Hubs", 0, 0, 0, 0, 0⟩]
      ⟨⟨2024, 7, 5⟩, "All Hubs", 0, 0, 0, 0, 0⟩
      (by with_unfolding_all decide) (by simp) rfl,
   C4_zero_guard.2.2 7⟩

/-! ### C5 -/

/-- C5: in every next-day row, total_attempted is exactly
attempted_previous_day + attempted_current_day and is at most the orders
count, and symmetrically for the delivered fields. -/
theorem C5_next_day_totals (df_m df_f : List Order) (m : Nat) (hf : String)
    (hc : Option String) (out : List NextDayRow) (row : NextDayRow)
    (hout : process_next_day df_m df_f m hf hc = some out) (hrow : row ∈ out) :
    row.totalAttempted = row.attemptedPrevDay + row.attemptedCurrDay ∧
    row.totalAttempted ≤ row.orders ∧
    row.totalDelivered = row.deliveredPrevDay + row.deliveredCurrDay ∧
    row.totalDelivered ≤ row.orders := by
  obtain ⟨mn, d, -, hr⟩ := mem_process_next_day hout hrow
  obtain ⟨S, -, -, hord, -, haP, haC, hatot, -, hdP, hdC, hdtot, -⟩ :=
    next_day_row_shape hr
  have hdne := date_prev_ne d
  refine ⟨hatot, ?_, hdtot, ?_⟩
  · rw [hatot, haP, haC, hord]
    exact filter_disjoint_length_le _ _ S
      (fun o hp hq => hdne (attempt_date_is_unique hp hq))
  · rw [hdtot, hdP, hdC, hord]
    exact filter_disjoint_length_le _ _ S
      (fun o hp hq => hdne (deliver_date_is_unique hp hq))

/-- C5 (witness): the totals identity and bound instantiated on the
6 July row generated by one special order picked 5 July after the
cutoff. -/
theorem C5_witness :
    (⟨⟨2024, 7, 6⟩, "All Hubs", 1, 0, 1, 1, 100, 0, 1, 1, 100⟩ : NextDayRow).totalAttempted =
      (⟨⟨2024, 7, 6⟩, "All Hubs", 1, 0, 1, 1, 100, 0, 1, 1, 100⟩ : NextDayRow).attemptedPrevDay +
        (⟨⟨2024, 7, 6⟩, "All Hubs", 1, 0, 1, 1, 100, 0, 1, 1, 100⟩ : NextDayRow).attemptedCurrDay ∧
    (⟨⟨2024, 7, 6⟩, "All Hubs", 1, 0, 1, 1, 100, 0, 1, 1, 100⟩ : NextDayRow).totalAttempted ≤
      (⟨⟨2024, 7, 6⟩, "All Hubs", 1, 0, 1, 1, 100, 0, 1, 1, 100⟩ : NextDayRow).orders ∧
    (⟨⟨2024, 7, 6⟩, "All Hubs", 1, 0, 1, 1, 100, 0, 1, 1, 100⟩ : NextDayRow).totalDelivered =
      (⟨⟨2024, 7, 6⟩, "All Hubs", 1, 0, 1, 1, 100, 0, 1, 1, 100⟩ : NextDayRow).deliveredPrevDay +
        (⟨⟨2024, 7, 6⟩, "All Hubs", 1, 0, 1, 1, 100, 0, 1, 1, 100⟩ : NextDayRow).deliveredCurrDay ∧
    (⟨⟨2024, 7, 6⟩, "All Hubs", 1, 0, 1, 1, 100, 0, 1, 1, 100⟩ : NextDayRow).totalDelivered ≤
      (⟨⟨2024, 7, 6⟩, "All Hubs", 1, 0, 1, 1, 100, 0, 1, 1, 100⟩ : NextDayRow).orders :=
  C5_next_day_totals [tata_jul5_order] [tata_jul5_order] 7 "All" none
    [⟨⟨2024, 7, 6⟩, "All Hubs", 1, 0, 1, 1, 100, 0, 1, 1, 100⟩]
    ⟨⟨2024, 7, 6⟩, "All Hubs", 1, 0, 1, 1, 100, 0, 1, 1, 100⟩
    (by with_unfolding_all decide) (by simp)

/-! ### C6 -/

/-- C6: the next-day series never holds a row whose source orders count
is zero: days with an empty source set are skipped, so every emitted row
has a positive orders count. -/
theorem C6_next_day_rows_nonzero (df_m df_f : List Order) (m : Nat) (hf : String)
    (hc : Option String) (out : List NextDayRow) (row : NextDayRow)
    (hout : process_next_day df_m df_f m hf hc = some out) (hrow : row ∈ out) :
    0 < row.orders := by
  obtain ⟨mn, d, -, hr⟩ := mem_process_next_day hout hrow
  obtain ⟨S, -, -, hord, hne, -⟩ := next_day_row_shape hr
  rw [hord]
  exact Nat.pos_of_ne_zero hne

/-- C6 (witness): the positivity instantiated on the 6 July row of the
one-order table. -/
theorem C6_witness :
    0 < (⟨⟨2024, 7, 6⟩, "All Hubs", 1, 0, 1, 1, 100, 0, 1, 1, 100⟩ : NextDayRow).orders :=
  C6_next_day_rows_nonzero [tata_jul5_order] [tata_jul5_order] 7 "All" none
    [⟨⟨2024, 7, 6⟩, "All Hubs", 1, 0, 1, 1, 100, 0, 1, 1, 100⟩]
    ⟨⟨2024, 7, 6⟩, "All Hubs", 1, 0, 1, 1, 100, 0, 1, 1, 100⟩
    (by with_unfolding_all decide) (by simp)

/-! ### C7 -/

/-- C7: a window with no order carrying a parseable pickup date does not
yield an empty result: both computations hit the pandas failure path
(`pd.date_range` on `NaT` endpoints, `NaT.year`), modelled here as
`none`, contradicting the claimed exception-free empty result. -/
theorem C7_empty_window_failure :
    process_same_day ([] : List Order) "All" none = none ∧
    process_next_day ([] : List Order) [] 8 "All" none = none ∧
    process_same_day [unknown_pick_order] "All" none = none ∧
    process_next_day [unknown_pick_order] [unknown_pick_order] 8 "All" none = none := by
  with_unfolding_all decide

/-! ### C8 -/

/-- C8: the severity mapping sends a percentage value at least 95 to the
green (high) cell style, between 85 and 95 to the yellow (medium) style,
and below 85 to the red (low) style; stored percentages are exact
hundredths within half a hundredth of the raw value (2-decimal
rounding), displayed percentages are exact tenths within half a tenth
(1-decimal formatting), and every stored same-day percentage is an exact
hundredth. -/
theorem C8_severity_bands_and_rounding :
    (∀ v : ℚ, 95 ≤ v → color_cells v = "background-color: #4CAF50; color: white") ∧
    (∀ v : ℚ, 85 ≤ v → v < 95 → color_cells v = "background-color: #FFEB3B; color: black") ∧
    (∀ v : ℚ, v < 85 → color_cells v = "background-color: #F44336; color: white") ∧
    (∀ q : ℚ, (100 * round2 q).den = 1 ∧ |round2 q - q| ≤ 1 / 200) ∧
    (∀ q : ℚ, (10 * format_pct_display q).den = 1 ∧ |format_pct_display q - q| ≤ 1 / 20) ∧
    (∀ (df : List Order) (hf : String) (hc : Option String) (out : List SameDayRow)
        (row : SameDayRow), process_same_day df hf hc = some out → row ∈ out →
        (100 * row.attemptedPct).den = 1 ∧ (100 * row.deliveredPct).den = 1) := by
  refine ⟨?_, ?_, ?_, fun q => ⟨round2_den q, round2_close q⟩,
    fun q => ⟨format_pct_display_den q, format_pct_display_close q⟩, ?_⟩
  · intro v hv
    unfold color_cells
    rw [if_pos hv]
  · intro v h85 h95
    unfold color_cells
    rw [if_neg (not_le.mpr h95), if_pos h85]
  · intro v hv
    unfold color_cells
    rw [if_neg (not_le.mpr (by linarith)), if_neg (not_le.mpr hv)]
  · intro df hf hc out row hout hrow
    obtain ⟨d, -, hr⟩ := mem_process_same_day hout hrow
    obtain ⟨-, -, ha, hdl, -⟩ := same_day_row_shape hr
    rw [ha, hdl]
    exact ⟨round2_den _, round2_den _⟩

/-- C8 (witness): the bands evaluated at 96, 90 and 80, the 2-decimal
denominator fact at one third, and the stored-rounding fact on a
concrete emitted row. -/
theorem C8_witness :
    color_cells 96 = "background-color: #4CAF50; color: white" ∧
    color_cells 90 = "background-color: #FFEB3B; color: black" ∧
    color_cells 80 = "background-color: #F44336; color: white" ∧
    (100 * round2 (1 / 3)).den = 1 ∧
    (100 * (⟨⟨2024, 7, 5⟩, "All Hubs", 0, 0, 0, 0, 0⟩ : SameDayRow).attemptedPct).den = 1 :=
  ⟨C8_severity_bands_and_rounding.1 96 (by norm_num),
   C8_severity_bands_and_rounding.2.1 90 (by norm_num) (by norm_num),
   C8_severity_bands_and_rounding.2.2.1 80 (by norm_num),
   (C8_severity_bands_and_rounding.2.2.2.1 (1 / 3)).1,
   (C8_severity_bands_and_rounding.2.2.2.2.2 [westside_late_order] "All" none
      [⟨⟨2024, 7, 5⟩, "All Hubs", 0, 0, 0, 0, 0⟩]
      ⟨⟨2024, 7, 5⟩, "All Hubs", 0, 0, 0, 0, 0⟩
      (by with_unfolding_all decide) (by simp)).1⟩

/-! ### C9 -/

/-- C9: hub-column resolution returns a candidate header present in the
table's columns such that every earlier candidate in the fixed probe
order is absent, returns nothing exactly when no candidate is present,
in which case the hub-wise rollup yields empty series and every same-day
row is reported under the single "All Hubs" dimension value. -/
theorem C9_hub_column_resolution :
    (∀ (cols : List String) (c : String), find_hub_column cols = some c →
      c ∈ hub_column_candidates ∧ cols.contains c = true ∧
      ∃ l₁ l₂, hub_column_candidates = l₁ ++ c :: l₂ ∧
        ∀ x ∈ l₁, cols.contains x = false) ∧
    (∀ cols : List String, find_hub_column cols = none →
      ∀ c ∈ hub_column_candidates, cols.contains c = false) ∧
    (∀ (df_m df_f : List Order) (m : Nat),
      process_all_hubs_performance df_m df_f m none = some ([], [])) ∧
    (∀ (df : List Order) (hf : String) (out : List SameDayRow) (row : SameDayRow),
      process_same_day df hf none = some out → row ∈ out → row.hub = "All Hubs") := by
  refine ⟨?_, ?_, fun _ _ _ => rfl, ?_⟩
  · intro cols c h
    unfold find_hub_column at h
    obtain ⟨l₁, l₂, hsplit, hpc, hall⟩ := find_first_split _ _ _ h
    refine ⟨?_, hpc, l₁, l₂, hsplit, hall⟩
    rw [hsplit]
    exact List.mem_append.mpr (Or.inr (List.mem_cons_self c l₂))
  · intro cols h c hcmem
    unfold find_hub_column at h
    have hnc := List.find?_eq_none.mp h c hcmem
    simpa using hnc
  · intro df hf out row hout hrow
    obtain ⟨d, -, hr⟩ := mem_process_same_day hout hrow
    obtain ⟨-, hhub, -⟩ := same_day_row_shape hr
    rw [hhub]
    unfold hub_label
    rw [if_neg (by simp)]

/-- C9 (witness): resolution instantiated on the column list
Customer, Hub (the second candidate matches), the hub-less rollup on an
empty table, and the "All Hubs" dimension value on a concrete row. -/
theorem C9_witness :
    (⟨⟨2024, 7, 2⟩, "All Hubs", 1, 1, 100, 0, 0⟩ : SameDayRow).hub = "All Hubs" ∧
    process_all_hubs_performance [] [] 8 none = some ([], []) ∧
    (["Customer", "Hub"] : List String).contains "Hub" = true :=
  ⟨C9_hub_column_resolution.2.2.2 [acme_jul2_order] "All"
      [⟨⟨2024, 7, 2⟩, "All Hubs", 1, 1, 100, 0, 0⟩]
      ⟨⟨2024, 7, 2⟩, "All Hubs", 1, 1, 100, 0, 0⟩
      (by with_unfolding_all decide) (by simp),
   C9_hub_column_resolution.2.2.1 [] [] 8,
   (C9_hub_column_resolution.1 ["Customer", "Hub"] "Hub"
      (by with_unfolding_all decide)).2.1⟩

/-! ### C10 -/

/-- C10: the four core computations are pure functions of their
arguments, so re-invoking any of them on an unchanged table with the
same arguments returns identical output. -/
theorem C10_deterministic (df_month df_full : List Order) (m : Nat) (hf : String)
    (hc : Option String) :
    process_same_day df_month hf hc = process_same_day df_month hf hc ∧
    process_next_day df_month df_full m hf hc = process_next_day df_month df_full m hf hc ∧
    process_hub_performance df_month hc = process_hub_performance df_month hc ∧
    process_customer_performance df_month = process_customer_performance df_month :=
  ⟨rfl, rfl, rfl, rfl⟩
